import Mathlib

/-!
Shallow embedding of `src/lib/util/profile/environment.js` from the
azure-xplat-cli repository: the cloud-environment registry (named endpoint
parameter bundles with environment-variable override resolution), the
public-environment catalog, realm injection into portal URLs, auth-config
derivation, and the `addAccount` login orchestrator.

JavaScript values are modelled as follows: a string-or-null field is an
`Option String` (`none` = `null`/`undefined`); the process environment is a
lookup function `String → Option String`; thrown errors and callback errors
become `Except String`; the external collaborators (adalAuth,
subscriptionUtils, the Subscription constructor) are parameters of the
functions that call them, matching the spec's declaration that they are
external interfaces.
-/

namespace AzureEnv

set_option autoImplicit false

/-- Registered endpoint parameters: `Environment.parameters` in the source,
one constructor per `EnvironmentParameter` in the fixed registry. -/
inductive EnvParam where
  | portalUrl
  | publishingProfileUrl
  | managementEndpointUrl
  | resourceManagerEndpointUrl
  | sqlManagementEndpointUrl
  | sqlServerHostnameSuffix
  | activeDirectoryEndpointUrl
  | activeDirectoryResourceId
  | commonTenantName
  | galleryEndpointUrl
  | activeDirectoryGraphResourceId
  | activeDirectoryGraphApiVersion
  deriving DecidableEq, Repr

/-- The `name` field of each registered `EnvironmentParameter`. -/
def paramName : EnvParam → String
  | .portalUrl => "portalUrl"
  | .publishingProfileUrl => "publishingProfileUrl"
  | .managementEndpointUrl => "managementEndpointUrl"
  | .resourceManagerEndpointUrl => "resourceManagerEndpointUrl"
  | .sqlManagementEndpointUrl => "sqlManagementEndpointUrl"
  | .sqlServerHostnameSuffix => "sqlServerHostnameSuffix"
  | .activeDirectoryEndpointUrl => "activeDirectoryEndpointUrl"
  | .activeDirectoryResourceId => "activeDirectoryResourceId"
  | .commonTenantName => "commonTenantName"
  | .galleryEndpointUrl => "galleryEndpointUrl"
  | .activeDirectoryGraphResourceId => "activeDirectoryGraphResourceId"
  | .activeDirectoryGraphApiVersion => "activeDirectoryGraphApiVersion"

/-- The `environmentVariable` field of each registered `EnvironmentParameter`. -/
def environmentVariable : EnvParam → String
  | .portalUrl => "AZURE_PORTAL_URL"
  | .publishingProfileUrl => "AZURE_PUBLISHINGPROFILE_URL"
  | .managementEndpointUrl => "AZURE_MANAGEMENTENDPOINT_URL"
  | .resourceManagerEndpointUrl => "AZURE_RESOURCEMANAGERENDPOINT_URL"
  | .sqlManagementEndpointUrl => "AZURE_SQL_MANAGEMENTENDPOINT_URL"
  | .sqlServerHostnameSuffix => "AZURE_SQL_SERVER_HOSTNAME_SUFFIX"
  | .activeDirectoryEndpointUrl => "AZURE_ACTIVEDIRECTORY_ENDPOINT_URL"
  | .activeDirectoryResourceId => "AZURE_ACTIVEDIRECTORY_RESOURCE_ID"
  | .commonTenantName => "AZURE_ACTIVEDIRECTORY_COMMON_TENANT_NAME"
  | .galleryEndpointUrl => "AZURE_GALLERY_ENDPOINT_URL"
  | .activeDirectoryGraphResourceId => "AZURE_ACTIVEDIRECTORY_GRAPH_RESOURCE_ID"
  | .activeDirectoryGraphApiVersion => "AZURE_ACTIVEDIRECTORY_GRAPH_API_VERSION"

/-- Process environment: lookup of `process.env[v]`; `none` means the
variable is unset. -/
def ProcEnv : Type := String → Option String

/-- An `Environment` instance: its `name` and its raw `values` store.
`values p = none` models the stored value `null`. -/
structure Environment where
  name : String
  values : EnvParam → Option String

/-- Construction-time data (`envData`): for each registered parameter,
`none` means the key is absent from the bundle, `some none` means it is
present with value `null`, `some (some s)` means present with string `s`. -/
def EnvData : Type := EnvParam → Option (Option String)

/-- The `Environment` constructor: stores `name`, and default-fills every
registered-but-unsupplied parameter with `null`
(`_.defaults(values, nulls(...))`). It performs no validation and cannot
fail. -/
def mkEnvironment (name : String) (data : EnvData) : Environment :=
  { name := name
    values := fun p =>
      match data p with
      | none => none
      | some v => v }

/-- The message thrown by the parameter getter when resolution yields
`null` (`util.format` applied to the source's format string and the
parameter name). -/
def unresolvedEndpointMessage (n : String) : String :=
  "The endpoint field " ++ n ++ " is not defined in this environment. Either this feature is not supported or the endpoint needs to be set using 'azure account env set'"

/-- The resolution step of the parameter getter:
`process.env[self.environmentVariable] || env.values[self.name]`.
A set-but-empty environment variable is falsy, so the stored value is used. -/
def resolveParam (e : Environment) (penv : ProcEnv) (p : EnvParam) : Option String :=
  match penv (environmentVariable p) with
  | some s => if s = "" then e.values p else some s
  | none => e.values p

/-- The parameter getter (`propertyDescriptor`'s `get`): resolve, then throw
the unresolved-endpoint error iff the resolved value is `null`. -/
def readParam (e : Environment) (penv : ProcEnv) (p : EnvParam) : Except String String :=
  match resolveParam e penv p with
  | none => .error (unresolvedEndpointMessage (paramName p))
  | some v => .ok v

/-- The parameter setter (`propertyDescriptor`'s `set`):
`this.values[self.name] = value`, touching nothing else. -/
def setParam (e : Environment) (p : EnvParam) (v : String) : Environment :=
  { e with values := fun q => if q = p then some v else e.values q }

/-- Construction data of the built-in `AzureCloud` environment literal. -/
def azureCloudData : EnvData := fun p =>
  match p with
  | .portalUrl => some (some "http://go.microsoft.com/fwlink/?LinkId=254433")
  | .publishingProfileUrl => some (some "http://go.microsoft.com/fwlink/?LinkId=254432")
  | .managementEndpointUrl => some (some "https://management.core.windows.net")
  | .resourceManagerEndpointUrl => some (some "https://management.azure.com/")
  | .sqlManagementEndpointUrl => some (some "https://management.core.windows.net:8443/")
  | .sqlServerHostnameSuffix => some (some ".database.windows.net")
  | .galleryEndpointUrl => some (some "https://gallery.azure.com/")
  | .activeDirectoryEndpointUrl => some (some "https://login.windows.net")
  | .activeDirectoryResourceId => some (some "https://management.core.windows.net/")
  | .commonTenantName => some (some "common")
  | .activeDirectoryGraphResourceId => some (some "https://graph.windows.net/")
  | .activeDirectoryGraphApiVersion => some (some "2013-04-05")

/-- Construction data of the built-in `AzureChinaCloud` environment literal. -/
def azureChinaCloudData : EnvData := fun p =>
  match p with
  | .portalUrl => some (some "http://go.microsoft.com/fwlink/?LinkId=301902")
  | .publishingProfileUrl => some (some "http://go.microsoft.com/fwlink/?LinkID=301774")
  | .managementEndpointUrl => some (some "https://management.core.chinacloudapi.cn")
  | .resourceManagerEndpointUrl => some (some "https://management.chinacloudapi.cn")
  | .sqlManagementEndpointUrl => some (some "https://management.core.chinacloudapi.cn:8443/")
  | .sqlServerHostnameSuffix => some (some ".database.chinacloudapi.cn")
  | .galleryEndpointUrl => some (some "https://gallery.chinacloudapi.cn/")
  | .activeDirectoryEndpointUrl => some (some "https://login.chinacloudapi.cn")
  | .activeDirectoryResourceId => some (some "https://management.core.chinacloudapi.cn/")
  | .commonTenantName => some (some "common")
  | .activeDirectoryGraphResourceId => some (some "https://graph.windows.net/")
  | .activeDirectoryGraphApiVersion => some (some "2013-04-05")

/-- The built-in `AzureCloud` environment. -/
def azureCloud : Environment := mkEnvironment "AzureCloud" azureCloudData

/-- The built-in `AzureChinaCloud` environment. -/
def azureChinaCloud : Environment := mkEnvironment "AzureChinaCloud" azureChinaCloudData

/-- The catalog `Environment.publicEnvironments`. -/
def publicEnvironments : List Environment := [azureCloud, azureChinaCloud]

/-- The derived `isPublicEnvironment` getter: membership of `this.name` in
the names plucked from `Environment.publicEnvironments`, computed at read
time from the catalog. -/
def isPublicEnvironment (e : Environment) : Bool :=
  (publicEnvironments.map Environment.name).contains e.name

/-- Serialized form of an environment: the flat object produced by
`toJSON`, holding `name` plus the raw stored value of every registered
parameter (nulls included). -/
structure EnvJSON where
  name : String
  params : EnvParam → Option String

/-- The `toJSON` method: `_.extend({ name: this.name }, this.values)` — it
reads the raw `values` store, never the environment-variable-resolved
values. -/
def toJSON (e : Environment) : EnvJSON :=
  { name := e.name, params := e.values }

/-- Reconstruction of an environment from its serialized form: feeding the
flat `toJSON` output back into the constructor. Every registered parameter
key is present in the JSON (possibly as `null`), hence the `some`. -/
def ofJSON (j : EnvJSON) : Environment :=
  mkEnvironment j.name (fun p => some (j.params p))

/-! ## URL realm injection (`addRealm`, Node's `url.parse`/`url.format`)

The source passes the string through Node's legacy `url` module with query
parsing enabled, deletes the cached `search` string, assigns `query.whr`,
and reformats. The model keeps the non-query portion of the URL opaque and
parses the query string into an ordered key-value list, which is exactly
the data `addRealm` inspects and rewrites. Percent-encoding and duplicate
query keys are outside the model (none of the stored URLs need them). -/

/-- Split of a URL into the part before the first `?` and its parsed query. -/
structure UrlObj where
  base : String
  query : List (String × String)

/-- Character-level split at the first occurrence of `c`: the part before
it, and `some` the part after it when `c` occurs at all. -/
def splitAtFirst (c : Char) : List Char → List Char × Option (List Char)
  | [] => ([], none)
  | x :: xs =>
    if x = c then ([], some xs)
    else
      let r := splitAtFirst c xs
      (x :: r.1, r.2)

/-- Character-level split at every occurrence of `c`. -/
def splitAtAll (c : Char) : List Char → List (List Char)
  | [] => [[]]
  | x :: xs =>
    let r := splitAtAll c xs
    if x = c then [] :: r
    else
      match r with
      | [] => [[x]]
      | y :: ys => (x :: y) :: ys

/-- Query-string parsing as in Node's `querystring.parse`: split on `&`,
then each pair at its first `=` (a pair with no `=` gets value `""`). -/
def parseQuery (s : String) : List (String × String) :=
  if s = "" then []
  else (splitAtAll '&' s.toList).map fun kv =>
    match splitAtFirst '=' kv with
    | (k, none) => (⟨k⟩, "")
    | (k, some v) => (⟨k⟩, ⟨v⟩)

/-- URL parsing with query parsing enabled (`url.parse(targetUrl, true)`),
restricted to the fields `addRealm` uses: everything before the first `?`
stays opaque in `base`, everything after it becomes the parsed `query`
object. None of the stored URLs carry a fragment, which the model omits. -/
def parseUrl (u : String) : UrlObj :=
  match splitAtFirst '?' u.toList with
  | (b, none) => { base := ⟨b⟩, query := [] }
  | (b, some rest) => { base := ⟨b⟩, query := parseQuery ⟨rest⟩ }

/-- Join of the rebuilt `k=v` query pairs with `&`. -/
def joinQuery : List String → String
  | [] => ""
  | [x] => x
  | x :: xs => x ++ "&" ++ joinQuery xs

/-- JavaScript object-key assignment `query.whr = realm`: replace the value
in place when the key exists, append otherwise. -/
def setQueryParam (q : List (String × String)) (k v : String) : List (String × String) :=
  if q.any (fun kv => kv.1 = k) then
    q.map fun kv => if kv.1 = k then (k, v) else kv
  else q ++ [(k, v)]

/-- URL formatting (`url.format`) with the cached `search` string deleted:
the query string is rebuilt from the query object, omitted when empty. -/
def formatUrl (u : UrlObj) : String :=
  match u.query with
  | [] => u.base
  | q => u.base ++ "?" ++ joinQuery (q.map fun kv => kv.1 ++ "=" ++ kv.2)

/-- The `addRealm` helper: with a truthy realm, parse the URL, delete the
`search` cache, assign `query.whr`, reformat; with a falsy realm
(absent or empty string), return the URL unchanged. -/
def addRealm (targetUrl : String) (realm : Option String) : String :=
  match realm with
  | none => targetUrl
  | some r =>
    if r = "" then targetUrl
    else
      let urlObj := parseUrl targetUrl
      formatUrl { base := urlObj.base, query := setQueryParam urlObj.query "whr" r }

/-- The `getPortalUrl` method: read the resolved portal URL (which may throw
the unresolved-endpoint error), then inject the realm. -/
def getPortalUrl (e : Environment) (penv : ProcEnv) (realm : Option String) :
    Except String String :=
  (readParam e penv .portalUrl).map (fun u => addRealm u realm)

/-- The `getPublishingProfileUrl` method, identical on the
publishing-profile URL. -/
def getPublishingProfileUrl (e : Environment) (penv : ProcEnv) (realm : Option String) :
    Except String String :=
  (readParam e penv .publishingProfileUrl).map (fun u => addRealm u realm)

/-! ## Auth configuration and the login orchestrator -/

/-- Modelled from the spec: `constants.XPLAT_CLI_CLIENT_ID`, the fixed
well-known client-identity constant shared by all environments. The file
`lib/util/constants.js` is not under `src/`, so its concrete value is
abstracted; only its being one fixed constant matters here. -/
def XPLAT_CLI_CLIENT_ID : String := "xplat-cli-well-known-client-id"

/-- The derived auth configuration object returned by `getAuthConfig`. -/
structure AuthConfig where
  authorityUrl : String
  tenantId : String
  resourceId : String
  clientId : String
  deriving DecidableEq, Repr

/-- JavaScript truthiness fallback for an optional string argument:
`undefined`, `null` and `""` are falsy, so the fallback computation runs;
any other string passes through. -/
def jsArgOrElse (arg : Option String) (fallback : Except String String) :
    Except String String :=
  match arg with
  | some t => if t = "" then fallback else .ok t
  | none => fallback

/-- The `getAuthConfig(tenantId, resourceId)` method: default `tenantId`
from `this.commonTenantName` and `resourceId` from
`this.activeDirectoryResourceId` when the argument is falsy (each such
default, like the `authorityUrl` read, goes through the parameter getter
and can throw the unresolved-endpoint error), then build the record with
the fixed client constant. The call mutates nothing. -/
def getAuthConfig (e : Environment) (penv : ProcEnv)
    (tenantId? resourceId? : Option String) : Except String AuthConfig := do
  let tenantId ← jsArgOrElse tenantId? (readParam e penv .commonTenantName)
  let resourceId ← jsArgOrElse resourceId? (readParam e penv .activeDirectoryResourceId)
  let authorityUrl ← readParam e penv .activeDirectoryEndpointUrl
  return { authorityUrl := authorityUrl
           tenantId := tenantId
           resourceId := resourceId
           clientId := XPLAT_CLI_CLIENT_ID }

/-- A raw subscription record as handed to `processSubscriptions` by the
subscription-lookup collaborators; every field may be absent. -/
structure RawSubscription where
  subscriptionId : Option String
  displayName : Option String
  subscriptionName : Option String
  activeDirectoryTenantId : Option String
  deriving DecidableEq, Repr

/-- The `user` sub-object of a normalized subscription. -/
structure UserInfo where
  name : String
  tenant : String
  type : String
  deriving DecidableEq, Repr

/-- Modelled from the spec: the canonical Subscription shape
`{id, name, user: {name, tenant, type}, tenantId}` of section 3; the
`Subscription` constructor lives in `lib/util/profile/subscription.js`,
which is not under `src/`. The back-reference to the constructing
environment is carried separately by the caller and not part of the
record-shape claims. -/
structure Subscription where
  id : Option String
  name : Option String
  user : UserInfo
  tenantId : String
  deriving DecidableEq, Repr

/-- JavaScript `a || b` on two optional strings: `b` whenever `a` is absent
or empty, `a` otherwise. -/
def jsOr (a b : Option String) : Option String :=
  match a with
  | some s => if s = "" then b else some s
  | none => b

/-- Normalization of one raw subscription record inside
`processSubscriptions`: `id` from `subscriptionId`, `name` from
`displayName || subscriptionName`, the `user` object from the (already
normalized) username, the tenant argument and the branch-selected user
type, and `tenantId` from the truthy-checked ternary
`s.activeDirectoryTenantId ? s.activeDirectoryTenantId : tenant`. -/
def normalizeSubscription (username tenant userType : String)
    (s : RawSubscription) : Subscription :=
  { id := s.subscriptionId
    name := jsOr s.displayName s.subscriptionName
    user := { name := username, tenant := tenant, type := userType }
    tenantId :=
      match s.activeDirectoryTenantId with
      | some t => if t = "" then tenant else t
      | none => tenant }

/-- The `processSubscriptions(err, subscriptions)` continuation: propagate
an error unchanged, otherwise map every record through the normalization
and hand the whole list to the callback. -/
def processSubscriptions (username tenant userType : String)
    (r : Except String (List RawSubscription)) :
    Except String (List Subscription) :=
  match r with
  | .error err => .error err
  | .ok subscriptions =>
    .ok (subscriptions.map (normalizeSubscription username tenant userType))

/-- The tenant-info element built on the service-principal path:
`{ tenantId: tenant, authContext: token }`. The token is opaque data. -/
structure TenantInfo where
  tenantId : String
  authContext : String
  deriving DecidableEq, Repr

/-- Outcome of one `addAccount` invocation: a synchronous throw (an
unresolved endpoint read inside `getAuthConfig` on the service-principal
path), `callback(err)`, or `callback(null, subscriptions)`. -/
inductive AddAccountResult where
  | thrown (msg : String)
  | cbError (err : String)
  | cbSuccess (subs : List Subscription)
  deriving DecidableEq, Repr

/-- Signature bundle for the external collaborators `addAccount` consumes:
`adalAuth.normalizeUserName`, `subscriptionUtils.getSubscriptions`,
`adalAuth.acquireServicePrincipalToken` and
`subscriptionUtils.getSubscriptionsFromTenants`, per the spec's external
interface list. -/
structure Collaborators where
  normalizeUserName : String → String
  getSubscriptions :
    Environment → String → String → String → Except String (List RawSubscription)
  acquireServicePrincipalToken :
    AuthConfig → String → String → Except String String
  getSubscriptionsFromTenants :
    Environment → String → List TenantInfo → Except String (List RawSubscription)

/-- The `addAccount(username, password, tenant, loginAsServicePrincipal,
callback)` orchestrator: normalize the username, pick the user type,
then either delegate to `getSubscriptions` (user path) or derive an auth
config scoped to `tenant`, exchange the credentials for a token and
delegate to `getSubscriptionsFromTenants` with a single tenant-info entry
(service-principal path); both paths finish in `processSubscriptions`. -/
def addAccount (c : Collaborators) (e : Environment) (penv : ProcEnv)
    (username password tenant : String) (loginAsServicePrincipal : Bool) :
    AddAccountResult :=
  let username := c.normalizeUserName username
  let userType := if loginAsServicePrincipal then "servicePrincipal" else "user"
  let finish : Except String (List RawSubscription) → AddAccountResult := fun r =>
    match processSubscriptions username tenant userType r with
    | .error err => .cbError err
    | .ok subs => .cbSuccess subs
  if !loginAsServicePrincipal then
    finish (c.getSubscriptions e username password tenant)
  else
    match getAuthConfig e penv (some tenant) none with
    | .error msg => .thrown msg
    | .ok authCfg =>
      match c.acquireServicePrincipalToken authCfg username password with
      | .error err => .cbError err
      | .ok token =>
        finish (c.getSubscriptionsFromTenants e username
          [{ tenantId := tenant, authContext := token }])

/-! ## Concrete fixtures used by the witness theorems -/

/-- A process environment with every variable unset. -/
def emptyProcEnv : ProcEnv := fun _ => none

/-- Construction data supplying no parameter at all. -/
def absentData : EnvData := fun _ => none

/-- A process environment overriding only the portal-URL variable. -/
def portalOverridePenv : ProcEnv := fun v =>
  if v = "AZURE_PORTAL_URL" then some "http://proc.example/portal" else none

/-- Two raw subscription records: a fully-populated one, and one missing
both name fields and the directory tenant id. -/
def testRawSubs : List RawSubscription :=
  [ { subscriptionId := some "s1", displayName := some "Sub1",
      subscriptionName := none, activeDirectoryTenantId := some "tenant1" },
    { subscriptionId := some "s2", displayName := none,
      subscriptionName := none, activeDirectoryTenantId := none } ]

/-- Mock collaborators whose lookups succeed; the username normalizer
appends a marker so that its effect is observable. -/
def testCollaborators : Collaborators :=
  { normalizeUserName := fun s => s ++ "#n"
    getSubscriptions := fun _ _ _ _ => .ok testRawSubs
    acquireServicePrincipalToken := fun _ _ _ => .ok "token1"
    getSubscriptionsFromTenants := fun _ _ _ => .ok testRawSubs }

/-- Mock collaborators whose token acquisition fails. -/
def failingAcquireCollaborators : Collaborators :=
  { testCollaborators with
    acquireServicePrincipalToken := fun _ _ _ => .error "token acquisition failed" }

/-- Mock collaborators whose token acquisition succeeds but whose tenant
subscription lookup fails. -/
def failingLookupCollaborators : Collaborators :=
  { testCollaborators with
    getSubscriptionsFromTenants := fun _ _ _ => .error "lookup failed" }

/-! ## Claim theorems -/

/-- C1: for every registered parameter `p` and environment constructed
without a value for `p` (key absent or explicit null), with `p`'s bound
environment variable unset or empty, construction itself succeeds and
merely stores null (the constructor is a total function, so the failure is
never raised at construction), reading the parameter fails with the
unresolved-endpoint error whose message names the parameter, and after
`set(p, v)` the read returns `v`. -/
theorem read_unset_param_fails_until_set
    (name : String) (data : EnvData) (p : EnvParam) (penv : ProcEnv)
    (hdata : data p = none ∨ data p = some none)
    (henv : penv (environmentVariable p) = none ∨
            penv (environmentVariable p) = some "") :
    (mkEnvironment name data).values p = none ∧
    readParam (mkEnvironment name data) penv p =
      .error (unresolvedEndpointMessage (paramName p)) ∧
    (∃ before after, unresolvedEndpointMessage (paramName p) =
      before ++ paramName p ++ after) ∧
    ∀ v, readParam (setParam (mkEnvironment name data) p v) penv p = .ok v := by
  have hval : (mkEnvironment name data).values p = none := by
    rcases hdata with h | h <;> simp [mkEnvironment, h]
  refine ⟨hval, ?_, ?_, ?_⟩
  · rcases henv with h | h <;> simp [readParam, resolveParam, h, hval]
  · exact ⟨"The endpoint field ",
      " is not defined in this environment. Either this feature is not supported or the endpoint needs to be set using 'azure account env set'",
      rfl⟩
  · intro v
    rcases henv with h | h <;> simp [readParam, resolveParam, setParam, h]

/-- Closed instance of `read_unset_param_fails_until_set` at the
`portalUrl` parameter of a custom environment built from empty data. -/
theorem read_unset_param_fails_until_set_witness :
    readParam (mkEnvironment "CustomCloud" absentData) emptyProcEnv .portalUrl =
      .error (unresolvedEndpointMessage "portalUrl") ∧
    readParam (setParam (mkEnvironment "CustomCloud" absentData) .portalUrl "x")
      emptyProcEnv .portalUrl = .ok "x" :=
  ⟨(read_unset_param_fails_until_set "CustomCloud" absentData .portalUrl emptyProcEnv
      (Or.inl rfl) (Or.inl rfl)).2.1,
   (read_unset_param_fails_until_set "CustomCloud" absentData .portalUrl emptyProcEnv
      (Or.inl rfl) (Or.inl rfl)).2.2.2 "x"⟩

/-- C2: for every registered parameter, a set and non-empty process
environment variable wins over any stored value, and otherwise the read
resolves to the raw stored value (returned whenever that stored value is
non-null; C1 covers the null case, where the read throws). -/
theorem env_var_wins_else_stored
    (e : Environment) (penv : ProcEnv) (p : EnvParam) :
    (∀ s, penv (environmentVariable p) = some s → s ≠ "" →
      readParam e penv p = .ok s) ∧
    ((penv (environmentVariable p) = none ∨
      penv (environmentVariable p) = some "") →
      resolveParam e penv p = e.values p ∧
      ∀ v, e.values p = some v → readParam e penv p = .ok v) := by
  constructor
  · intro s hs hne
    simp [readParam, resolveParam, hs, hne]
  · intro h
    have hres : resolveParam e penv p = e.values p := by
      rcases h with h | h <;> simp [resolveParam, h]
    refine ⟨hres, fun v hv => ?_⟩
    simp [readParam, hres, hv]

/-- Closed instance of `env_var_wins_else_stored`: with the portal
environment variable overriding, the read on `AzureCloud` returns the
override despite the conflicting stored catalog value; with no variable
set, it returns the stored value. -/
theorem env_var_wins_else_stored_witness :
    readParam azureCloud portalOverridePenv .portalUrl =
      .ok "http://proc.example/portal" ∧
    resolveParam azureCloud emptyProcEnv .portalUrl =
      azureCloud.values .portalUrl ∧
    readParam azureCloud emptyProcEnv .portalUrl =
      .ok "http://go.microsoft.com/fwlink/?LinkId=254433" :=
  ⟨(env_var_wins_else_stored azureCloud portalOverridePenv .portalUrl).1
      "http://proc.example/portal" rfl (by decide),
   ((env_var_wins_else_stored azureCloud emptyProcEnv .portalUrl).2 (Or.inl rfl)).1,
   ((env_var_wins_else_stored azureCloud emptyProcEnv .portalUrl).2 (Or.inl rfl)).2
      "http://go.microsoft.com/fwlink/?LinkId=254433" rfl⟩

/-- C9: `set` mutates only the stored value of the written parameter: the
written slot holds the new value, every other parameter's stored value and
the environment name are untouched, and the environment-variable layer is
unaffected (it is not part of the environment state at all), so a
subsequent read still prefers a set, non-empty environment variable. -/
theorem set_updates_only_fallback
    (e : Environment) (p : EnvParam) (v : String) :
    (setParam e p v).values p = some v ∧
    (∀ q, q ≠ p → (setParam e p v).values q = e.values q) ∧
    (setParam e p v).name = e.name ∧
    ∀ penv s, penv (environmentVariable p) = some s → s ≠ "" →
      readParam (setParam e p v) penv p = .ok s := by
  refine ⟨by simp [setParam], fun q hq => by simp [setParam, hq], rfl, ?_⟩
  intro penv s hs hne
  simp [readParam, resolveParam, hs, hne]

/-- Closed instance of `set_updates_only_fallback` on `AzureCloud`:
writing `portalUrl` stores the new value, leaves `galleryEndpointUrl`
alone, and a read under the portal override still returns the
environment variable's value. -/
theorem set_updates_only_fallback_witness :
    (setParam azureCloud .portalUrl "http://new.portal").values .portalUrl =
      some "http://new.portal" ∧
    (setParam azureCloud .portalUrl "http://new.portal").values .galleryEndpointUrl =
      azureCloud.values .galleryEndpointUrl ∧
    readParam (setParam azureCloud .portalUrl "http://new.portal")
      portalOverridePenv .portalUrl = .ok "http://proc.example/portal" :=
  ⟨(set_updates_only_fallback azureCloud .portalUrl "http://new.portal").1,
   (set_updates_only_fallback azureCloud .portalUrl "http://new.portal").2.1
      .galleryEndpointUrl (by decide),
   (set_updates_only_fallback azureCloud .portalUrl "http://new.portal").2.2.2
      portalOverridePenv "http://proc.example/portal" rfl (by decide)⟩

/-- C8: `isPublicEnvironment` is true exactly when the environment's name
equals the name of a catalog entry, i.e. `AzureCloud` or `AzureChinaCloud`,
and it is derived from the name at read time: any two environments with
the same name agree on it. -/
theorem isPublic_iff_catalog_name (e : Environment) :
    (isPublicEnvironment e = true ↔
      e.name = "AzureCloud" ∨ e.name = "AzureChinaCloud") ∧
    ∀ e₂ : Environment, e.name = e₂.name →
      isPublicEnvironment e = isPublicEnvironment e₂ := by
  constructor
  · simp [isPublicEnvironment, publicEnvironments, azureCloud, azureChinaCloud,
      mkEnvironment]
  · intro e₂ h
    simp [isPublicEnvironment, h]

/-- Closed instance of `isPublic_iff_catalog_name`: the catalog entries are
public, a custom name is not, and the flag depends only on the name. -/
theorem isPublic_iff_catalog_name_witness :
    isPublicEnvironment azureCloud = true ∧
    isPublicEnvironment azureChinaCloud = true ∧
    isPublicEnvironment (mkEnvironment "CustomCloud" absentData) = false ∧
    isPublicEnvironment azureCloud =
      isPublicEnvironment (mkEnvironment "AzureCloud" absentData) :=
  ⟨(isPublic_iff_catalog_name azureCloud).1.mpr (Or.inl rfl),
   (isPublic_iff_catalog_name azureChinaCloud).1.mpr (Or.inr rfl),
   by decide,
   (isPublic_iff_catalog_name azureCloud).2 (mkEnvironment "AzureCloud" absentData) rfl⟩

/-- C5: `toJSON` emits the flat object of the name plus every registered
parameter's raw stored value (nulls included, and independent of the
process environment, which `toJSON` does not even consult), and feeding
the serialized form back into the constructor reproduces both the name and
a values map equal to the original's at every parameter. -/
theorem toJSON_raw_values_roundtrip (e : Environment) :
    (toJSON e).name = e.name ∧
    (∀ p, (toJSON e).params p = e.values p) ∧
    (ofJSON (toJSON e)).name = e.name ∧
    ∀ p, (ofJSON (toJSON e)).values p = e.values p := by
  refine ⟨rfl, fun p => rfl, rfl, fun p => ?_⟩
  simp [ofJSON, toJSON, mkEnvironment]

/-- Closed instance of `toJSON_raw_values_roundtrip` on `AzureCloud` and on
an environment holding a null: the serialized portal value is the raw
stored string (not the `portalOverridePenv`-resolved value, which differs),
a null survives serialization, and reconstruction restores the store. -/
theorem toJSON_raw_values_roundtrip_witness :
    (toJSON azureCloud).params .portalUrl =
      some "http://go.microsoft.com/fwlink/?LinkId=254433" ∧
    (toJSON azureCloud).params .portalUrl ≠ some "http://proc.example/portal" ∧
    (toJSON (mkEnvironment "CustomCloud" absentData)).params .portalUrl = none ∧
    (ofJSON (toJSON azureCloud)).values .portalUrl = azureCloud.values .portalUrl ∧
    (ofJSON (toJSON azureCloud)).name = "AzureCloud" :=
  ⟨(toJSON_raw_values_roundtrip azureCloud).2.1 .portalUrl,
   by decide,
   (toJSON_raw_values_roundtrip (mkEnvironment "CustomCloud" absentData)).2.1 .portalUrl,
   (toJSON_raw_values_roundtrip azureCloud).2.2.2 .portalUrl,
   (toJSON_raw_values_roundtrip azureCloud).2.2.1⟩

/-- Reduction of an `Except` bind on a success value. -/
theorem except_bind_ok {α β : Type} (a : α) (f : α → Except String β) :
    (Except.ok a >>= f) = f a := rfl

/-- Reduction of an `Except` bind on an error value. -/
theorem except_bind_error {α β : Type} (msg : String) (f : α → Except String β) :
    ((Except.error msg : Except String α) >>= f) = Except.error msg := rfl

/-- C7: `getAuthConfig` with no arguments defaults `tenantId` to the
resolved `commonTenantName` and `resourceId` to the resolved
`activeDirectoryResourceId`, always sets `authorityUrl` to the resolved
`activeDirectoryEndpointUrl`, explicit non-empty arguments pass through
unchanged, and every successfully produced config carries the one fixed
client constant; the model is a pure function of the environment, so the
call mutates nothing. -/
theorem getAuthConfig_defaults_and_fixed_client
    (e : Environment) (penv : ProcEnv) :
    (∀ c r a, readParam e penv .commonTenantName = .ok c →
      readParam e penv .activeDirectoryResourceId = .ok r →
      readParam e penv .activeDirectoryEndpointUrl = .ok a →
      getAuthConfig e penv none none =
        .ok { authorityUrl := a, tenantId := c, resourceId := r,
              clientId := XPLAT_CLI_CLIENT_ID }) ∧
    (∀ a, readParam e penv .activeDirectoryEndpointUrl = .ok a →
      getAuthConfig e penv (some "t1") (some "r1") =
        .ok { authorityUrl := a, tenantId := "t1", resourceId := "r1",
              clientId := XPLAT_CLI_CLIENT_ID }) ∧
    ∀ tenantId? resourceId? cfg,
      getAuthConfig e penv tenantId? resourceId? = .ok cfg →
      cfg.clientId = XPLAT_CLI_CLIENT_ID := by
  refine ⟨?_, ?_, ?_⟩
  · intro c r a hc hr ha
    simp [getAuthConfig, jsArgOrElse, hc, hr, ha, except_bind_ok]
  · intro a ha
    simp [getAuthConfig, jsArgOrElse, ha, except_bind_ok]
  · intro tenantId? resourceId? cfg h
    simp only [getAuthConfig] at h
    rcases htid : jsArgOrElse tenantId? (readParam e penv .commonTenantName) with msg | tid
    · rw [htid, except_bind_error] at h
      exact Except.noConfusion h
    rw [htid, except_bind_ok] at h
    rcases hrid : jsArgOrElse resourceId? (readParam e penv .activeDirectoryResourceId) with msg | rid
    · rw [hrid, except_bind_error] at h
      exact Except.noConfusion h
    rw [hrid, except_bind_ok] at h
    rcases hauth : readParam e penv .activeDirectoryEndpointUrl with msg | auth
    · rw [hauth, except_bind_error] at h
      exact Except.noConfusion h
    rw [hauth, except_bind_ok] at h
    cases h
    rfl

/-- Closed instance of `getAuthConfig_defaults_and_fixed_client` on
`AzureCloud` with no environment variables set. -/
theorem getAuthConfig_defaults_and_fixed_client_witness :
    getAuthConfig azureCloud emptyProcEnv none none =
      .ok { authorityUrl := "https://login.windows.net", tenantId := "common",
            resourceId := "https://management.core.windows.net/",
            clientId := XPLAT_CLI_CLIENT_ID } ∧
    getAuthConfig azureCloud emptyProcEnv (some "t1") (some "r1") =
      .ok { authorityUrl := "https://login.windows.net", tenantId := "t1",
            resourceId := "r1", clientId := XPLAT_CLI_CLIENT_ID } ∧
    ∀ cfg, getAuthConfig azureCloud emptyProcEnv (some "t2") (some "r2") = .ok cfg →
      cfg.clientId = XPLAT_CLI_CLIENT_ID :=
  ⟨(getAuthConfig_defaults_and_fixed_client azureCloud emptyProcEnv).1
      "common" "https://management.core.windows.net/" "https://login.windows.net"
      rfl rfl rfl,
   (getAuthConfig_defaults_and_fixed_client azureCloud emptyProcEnv).2.1
      "https://login.windows.net" rfl,
   fun cfg h => (getAuthConfig_defaults_and_fixed_client azureCloud emptyProcEnv).2.2
      (some "t2") (some "r2") cfg h⟩

/-- Assigning a query key always leaves that key bound to the new value. -/
theorem mem_setQueryParam_self (q : List (String × String)) (k v : String) :
    (k, v) ∈ setQueryParam q k v := by
  rcases hany : q.any (fun kv => kv.1 = k) with _ | _
  · simp [setQueryParam, hany]
  · simp only [setQueryParam, hany, if_true]
    obtain ⟨x, hx, hx1⟩ := List.any_eq_true.mp hany
    have hfx : (fun kv => if kv.1 = k then (k, v) else kv) x = (k, v) := by
      simp at hx1
      simp [hx1]
    exact List.mem_map.mpr ⟨x, hx, hfx⟩

/-- Assigning a query key preserves every pair with a different key. -/
theorem mem_setQueryParam_of_ne (q : List (String × String)) (k v : String)
    (kv : String × String) (hkv : kv ∈ q) (hne : kv.1 ≠ k) :
    kv ∈ setQueryParam q k v := by
  rcases hany : q.any (fun p => p.1 = k) with _ | _
  · simp only [setQueryParam, hany, if_false]
    exact List.mem_append_left _ hkv
  · simp only [setQueryParam, hany, if_true]
    have hfkv : (fun p => if p.1 = k then (k, v) else p) kv = kv := by simp [hne]
    exact List.mem_map.mpr ⟨kv, hkv, hfkv⟩

/-- C6 counterexample: on `AzureCloud`, whose stored portal URL already
carries the query string `LinkId=254433`, injecting realm `contoso.com`
keeps the pre-existing query parameter and appends `whr`; the result is
not the URL with the pre-existing query string dropped, refuting the
claim's "any pre-existing query string dropped". -/
theorem getPortalUrl_realm_keeps_existing_query :
    getPortalUrl azureCloud emptyProcEnv (some "contoso.com") =
      .ok "http://go.microsoft.com/fwlink/?LinkId=254433&whr=contoso.com" ∧
    getPortalUrl azureCloud emptyProcEnv (some "contoso.com") ≠
      .ok "http://go.microsoft.com/fwlink/?whr=contoso.com" :=
  ⟨rfl, fun h => absurd (Except.ok.inj h) (by decide)⟩

/-- C6 (amended): for every environment whose portal and publishing-profile
URLs resolve, a truthy realm rewrites each URL by rebuilding its query
from the parsed query object with `whr` assigned to the realm — the
pre-existing query pairs are preserved (an existing `whr` is replaced, and
only the cached `search` string is discarded, making the rebuilt query
authoritative) — while a falsy realm (absent or empty) returns the
resolved URL unchanged. -/
theorem realm_urls_rebuild_query_with_whr
    (e : Environment) (penv : ProcEnv) (u pu r : String) (hr : r ≠ "")
    (hp : readParam e penv .portalUrl = .ok u)
    (hq : readParam e penv .publishingProfileUrl = .ok pu) :
    (∃ q, getPortalUrl e penv (some r) =
        .ok (formatUrl { base := (parseUrl u).base, query := q }) ∧
      ("whr", r) ∈ q ∧
      ∀ kv ∈ (parseUrl u).query, kv.1 ≠ "whr" → kv ∈ q) ∧
    getPortalUrl e penv none = .ok u ∧
    getPortalUrl e penv (some "") = .ok u ∧
    (∃ q, getPublishingProfileUrl e penv (some r) =
        .ok (formatUrl { base := (parseUrl pu).base, query := q }) ∧
      ("whr", r) ∈ q ∧
      ∀ kv ∈ (parseUrl pu).query, kv.1 ≠ "whr" → kv ∈ q) ∧
    getPublishingProfileUrl e penv none = .ok pu ∧
    getPublishingProfileUrl e penv (some "") = .ok pu := by
  refine ⟨⟨setQueryParam (parseUrl u).query "whr" r, ?_, ?_, ?_⟩,
    by simp [getPortalUrl, hp, addRealm, Except.map],
    by simp [getPortalUrl, hp, addRealm, Except.map],
    ⟨setQueryParam (parseUrl pu).query "whr" r, ?_, ?_, ?_⟩,
    by simp [getPublishingProfileUrl, hq, addRealm, Except.map],
    by simp [getPublishingProfileUrl, hq, addRealm, Except.map]⟩
  · simp [getPortalUrl, hp, addRealm, hr, Except.map]
  · exact mem_setQueryParam_self _ "whr" r
  · exact fun kv hkv hne => mem_setQueryParam_of_ne _ "whr" r kv hkv hne
  · simp [getPublishingProfileUrl, hq, addRealm, hr, Except.map]
  · exact mem_setQueryParam_self _ "whr" r
  · exact fun kv hkv hne => mem_setQueryParam_of_ne _ "whr" r kv hkv hne

/-- Closed instance of `realm_urls_rebuild_query_with_whr` on `AzureCloud`
with realm `contoso.com`. -/
theorem realm_urls_rebuild_query_with_whr_witness :
    (∃ q, getPortalUrl azureCloud emptyProcEnv (some "contoso.com") =
        .ok (formatUrl { base := (parseUrl "http://go.microsoft.com/fwlink/?LinkId=254433").base, query := q }) ∧
      ("whr", "contoso.com") ∈ q ∧
      ∀ kv ∈ (parseUrl "http://go.microsoft.com/fwlink/?LinkId=254433").query,
        kv.1 ≠ "whr" → kv ∈ q) ∧
    getPortalUrl azureCloud emptyProcEnv none =
      .ok "http://go.microsoft.com/fwlink/?LinkId=254433" ∧
    getPortalUrl azureCloud emptyProcEnv (some "") =
      .ok "http://go.microsoft.com/fwlink/?LinkId=254433" ∧
    (∃ q, getPublishingProfileUrl azureCloud emptyProcEnv (some "contoso.com") =
        .ok (formatUrl { base := (parseUrl "http://go.microsoft.com/fwlink/?LinkId=254432").base, query := q }) ∧
      ("whr", "contoso.com") ∈ q ∧
      ∀ kv ∈ (parseUrl "http://go.microsoft.com/fwlink/?LinkId=254432").query,
        kv.1 ≠ "whr" → kv ∈ q) ∧
    getPublishingProfileUrl azureCloud emptyProcEnv none =
      .ok "http://go.microsoft.com/fwlink/?LinkId=254432" ∧
    getPublishingProfileUrl azureCloud emptyProcEnv (some "") =
      .ok "http://go.microsoft.com/fwlink/?LinkId=254432" :=
  realm_urls_rebuild_query_with_whr azureCloud emptyProcEnv
    "http://go.microsoft.com/fwlink/?LinkId=254433"
    "http://go.microsoft.com/fwlink/?LinkId=254432"
    "contoso.com" (by decide) rfl rfl

/-- C3: whenever the selected branch's lookup succeeds, `addAccount` hands
the callback the full raw list mapped in input order through the canonical
normalization; and that normalization sets `id` from `subscriptionId`,
`user` to the normalized username, the tenant argument and the
branch-selected type (`servicePrincipal` on the truthy branch, `user`
otherwise), `name` to `displayName` else `subscriptionName` (undefined —
not rejected — when both are absent), and `tenantId` to the record's
directory tenant id when that is a non-empty value, else the tenant
argument. -/
theorem addAccount_success_maps_canonical_shape
    (c : Collaborators) (e : Environment) (penv : ProcEnv)
    (u pw t : String) (raws : List RawSubscription) :
    (c.getSubscriptions e (c.normalizeUserName u) pw t = .ok raws →
      addAccount c e penv u pw t false =
        .cbSuccess (raws.map
          (normalizeSubscription (c.normalizeUserName u) t "user"))) ∧
    (∀ cfg token,
      getAuthConfig e penv (some t) none = .ok cfg →
      c.acquireServicePrincipalToken cfg (c.normalizeUserName u) pw = .ok token →
      c.getSubscriptionsFromTenants e (c.normalizeUserName u)
        [{ tenantId := t, authContext := token }] = .ok raws →
      addAccount c e penv u pw t true =
        .cbSuccess (raws.map
          (normalizeSubscription (c.normalizeUserName u) t "servicePrincipal"))) ∧
    ∀ username tenant userType s,
      (normalizeSubscription username tenant userType s).id = s.subscriptionId ∧
      (normalizeSubscription username tenant userType s).user =
        { name := username, tenant := tenant, type := userType } ∧
      (normalizeSubscription username tenant userType s).name =
        jsOr s.displayName s.subscriptionName ∧
      (s.displayName = none → s.subscriptionName = none →
        (normalizeSubscription username tenant userType s).name = none) ∧
      (∀ adt, s.activeDirectoryTenantId = some adt → adt ≠ "" →
        (normalizeSubscription username tenant userType s).tenantId = adt) ∧
      (s.activeDirectoryTenantId = none →
        (normalizeSubscription username tenant userType s).tenantId = tenant) := by
  refine ⟨?_, ?_, ?_⟩
  · intro hgs
    simp [addAccount, processSubscriptions, hgs]
  · intro cfg token hcfg hacq hgsft
    simp [addAccount, processSubscriptions, hcfg, hacq, hgsft]
  · intro username tenant userType s
    refine ⟨rfl, rfl, rfl, ?_, ?_, ?_⟩
    · intro h1 h2
      simp [normalizeSubscription, jsOr, h1, h2]
    · intro adt hadt hne
      simp [normalizeSubscription, hadt, hne]
    · intro h
      simp [normalizeSubscription, h]

/-- Closed instance of `addAccount_success_maps_canonical_shape` on the
mock collaborators: a user login over two raw records (one lacking both
name fields and the directory tenant id) yields the full normalized list
in input order, and a service-principal login yields the same records
with the `servicePrincipal` user type. -/
theorem addAccount_success_maps_canonical_shape_witness :
    addAccount testCollaborators azureCloud emptyProcEnv
      "alice" "pw" "tenant1" false =
      .cbSuccess
        [ { id := some "s1", name := some "Sub1",
            user := { name := "alice#n", tenant := "tenant1", type := "user" },
            tenantId := "tenant1" },
          { id := some "s2", name := none,
            user := { name := "alice#n", tenant := "tenant1", type := "user" },
            tenantId := "tenant1" } ] ∧
    addAccount testCollaborators azureCloud emptyProcEnv
      "sp1" "secret" "tenantX" true =
      .cbSuccess
        [ { id := some "s1", name := some "Sub1",
            user := { name := "sp1#n", tenant := "tenantX", type := "servicePrincipal" },
            tenantId := "tenant1" },
          { id := some "s2", name := none,
            user := { name := "sp1#n", tenant := "tenantX", type := "servicePrincipal" },
            tenantId := "tenantX" } ] :=
  ⟨(addAccount_success_maps_canonical_shape testCollaborators azureCloud emptyProcEnv
      "alice" "pw" "tenant1" testRawSubs).1 rfl,
   (addAccount_success_maps_canonical_shape testCollaborators azureCloud emptyProcEnv
      "sp1" "secret" "tenantX" testRawSubs).2.1
      { authorityUrl := "https://login.windows.net", tenantId := "tenantX",
        resourceId := "https://management.core.windows.net/",
        clientId := XPLAT_CLI_CLIENT_ID }
      "token1" rfl rfl rfl⟩

/-- C4: on the service-principal branch, a failed token acquisition makes
`addAccount` invoke the callback with that error alone, whatever the
subscription-lookup collaborator is (so the lookup step after a failed
exchange is never reached and no subscription list is produced), and a
failed tenant subscription lookup after a successful exchange likewise
propagates only its error. -/
theorem addAccount_sp_error_propagates
    (c : Collaborators) (e : Environment) (penv : ProcEnv)
    (u pw t : String) (cfg : AuthConfig) (err : String) :
    (getAuthConfig e penv (some t) none = .ok cfg →
      c.acquireServicePrincipalToken cfg (c.normalizeUserName u) pw = .error err →
      ∀ gsft, addAccount { c with getSubscriptionsFromTenants := gsft }
        e penv u pw t true = .cbError err) ∧
    ∀ token,
      getAuthConfig e penv (some t) none = .ok cfg →
      c.acquireServicePrincipalToken cfg (c.normalizeUserName u) pw = .ok token →
      c.getSubscriptionsFromTenants e (c.normalizeUserName u)
        [{ tenantId := t, authContext := token }] = .error err →
      addAccount c e penv u pw t true = .cbError err := by
  constructor
  · intro hcfg hacq gsft
    simp [addAccount, hcfg, hacq]
  · intro token hcfg hacq hgsft
    simp [addAccount, processSubscriptions, hcfg, hacq, hgsft]

/-- Closed instance of `addAccount_sp_error_propagates`: failing token
acquisition yields exactly `callback(err)`, and failing tenant lookup
after a successful exchange yields exactly its error. -/
theorem addAccount_sp_error_propagates_witness :
    addAccount failingAcquireCollaborators azureCloud emptyProcEnv
      "sp1" "secret" "tenantX" true = .cbError "token acquisition failed" ∧
    addAccount failingLookupCollaborators azureCloud emptyProcEnv
      "sp1" "secret" "tenantX" true = .cbError "lookup failed" :=
  ⟨(addAccount_sp_error_propagates failingAcquireCollaborators azureCloud emptyProcEnv
      "sp1" "secret" "tenantX"
      { authorityUrl := "https://login.windows.net", tenantId := "tenantX",
        resourceId := "https://management.core.windows.net/",
        clientId := XPLAT_CLI_CLIENT_ID }
      "token acquisition failed").1 rfl rfl
      failingAcquireCollaborators.getSubscriptionsFromTenants,
   (addAccount_sp_error_propagates failingLookupCollaborators azureCloud emptyProcEnv
      "sp1" "secret" "tenantX"
      { authorityUrl := "https://login.windows.net", tenantId := "tenantX",
        resourceId := "https://management.core.windows.net/",
        clientId := XPLAT_CLI_CLIENT_ID }
      "lookup failed").2 "token1" rfl rfl rfl⟩

/-- C10: `addAccount` normalizes the username before branching, so running
it equals running it with an identity normalizer on the already-normalized
username — every collaborator on both branches, including the
service-principal token acquisition, receives the normalized form — and
every subscription a successful invocation produces carries the
normalized username, not the raw argument. -/
theorem addAccount_normalizes_username_first
    (c : Collaborators) (e : Environment) (penv : ProcEnv)
    (u pw t : String) (sp : Bool) :
    addAccount c e penv u pw t sp =
      addAccount { c with normalizeUserName := id } e penv
        (c.normalizeUserName u) pw t sp ∧
    ∀ subs, addAccount c e penv u pw t sp = .cbSuccess subs →
      ∀ s ∈ subs, s.user.name = c.normalizeUserName u := by
  constructor
  · rfl
  · intro subs h s hs
    cases sp
    · simp only [addAccount, Bool.not_false, if_true] at h
      rcases hgs : c.getSubscriptions e (c.normalizeUserName u) pw t with msg | raws <;>
        rw [hgs] at h <;> simp [processSubscriptions] at h
      subst h
      obtain ⟨raw, _, hraw⟩ := List.mem_map.mp hs
      rw [← hraw]
      rfl
    · simp only [addAccount, Bool.not_true, if_false] at h
      rcases hcfg : getAuthConfig e penv (some t) none with msg | cfg <;>
        rw [hcfg] at h <;> simp at h
      rcases hacq : c.acquireServicePrincipalToken cfg (c.normalizeUserName u) pw with
        msg | token <;> rw [hacq] at h <;> simp at h
      rcases hgsft : c.getSubscriptionsFromTenants e (c.normalizeUserName u)
          [{ tenantId := t, authContext := token }] with msg | raws <;>
        rw [hgsft] at h <;> simp [processSubscriptions] at h
      subst h
      obtain ⟨raw, _, hraw⟩ := List.mem_map.mp hs
      rw [← hraw]
      rfl

/-- Closed instance of `addAccount_normalizes_username_first`: the mock run
equals the identity-normalizer run on the marked username, and the first
subscription of the user-path result carries the marked username. -/
theorem addAccount_normalizes_username_first_witness :
    addAccount testCollaborators azureCloud emptyProcEnv
      "alice" "pw" "tenant1" false =
      addAccount { testCollaborators with normalizeUserName := id }
        azureCloud emptyProcEnv "alice#n" "pw" "tenant1" false ∧
    ({ id := some "s1", name := some "Sub1",
       user := { name := "alice#n", tenant := "tenant1", type := "user" },
       tenantId := "tenant1" } : Subscription).user.name = "alice#n" :=
  ⟨(addAccount_normalizes_username_first testCollaborators azureCloud emptyProcEnv
      "alice" "pw" "tenant1" false).1,
   (addAccount_normalizes_username_first testCollaborators azureCloud emptyProcEnv
      "alice" "pw" "tenant1" false).2
      [ { id := some "s1", name := some "Sub1",
          user := { name := "alice#n", tenant := "tenant1", type := "user" },
          tenantId := "tenant1" },
        { id := some "s2", name := none,
          user := { name := "alice#n", tenant := "tenant1", type := "user" },
          tenantId := "tenant1" } ] rfl
      { id := some "s1", name := some "Sub1",
        user := { name := "alice#n", tenant := "tenant1", type := "user" },
        tenantId := "tenant1" }
      (by decide)⟩

end AzureEnv
